import Mathlib

/-!
Verification of the Bento MCP server (src/index.ts) against its
natural-language specification.

The embedding models the JavaScript values and control flow of the tool
handlers: environment variables are `Option String` (a variable is either
unset or holds a string; JavaScript truthiness treats both `undefined` and
the empty string as falsy), thrown faults are an explicit `JSError` carried
in `Except`, and each handler is a pure function that additionally returns
the delegated SDK call it performed (if any), so that the absence of a
remote call is provable.
-/

namespace BentoMcp

/-- A JavaScript runtime value, as far as the handlers observe it:
`null`, `undefined`, booleans, numbers (the handlers only ever treat
integral counts and amounts, so numbers are modelled as `Int`), strings,
arrays, and plain objects as ordered field lists. -/
inductive JSValue where
  | null
  | undefined
  | bool (b : Bool)
  | num (n : Int)
  | str (s : String)
  | arr (elems : List JSValue)
  | obj (fields : List (String × JSValue))
deriving Repr

/-- JavaScript truthiness of a `string | undefined` value: `undefined`
and the empty string are falsy, every other string is truthy. This is
the meaning of `!x` applied to an optional string parameter or to a
`process.env` entry in the source. -/
def truthy : Option String → Bool
  | none => false
  | some s => !s.isEmpty

/-- Hex digit for JSON `\u00XX` escapes (lower case, as JSON.stringify). -/
def hexDigit (n : Nat) : Char :=
  if n < 10 then Char.ofNat (48 + n) else Char.ofNat (87 + n)

/-- Escape one character the way `JSON.stringify` escapes characters
inside string literals. -/
def jsonEscapeChar (c : Char) : String :=
  if c = Char.ofNat 34 then "\\\""
  else if c = Char.ofNat 92 then "\\\\"
  else if c.toNat = 8 then "\\b"
  else if c.toNat = 9 then "\\t"
  else if c.toNat = 10 then "\\n"
  else if c.toNat = 12 then "\\f"
  else if c.toNat = 13 then "\\r"
  else if c.toNat < 32 then
    "\\u00" ++ String.mk [hexDigit (c.toNat / 16), hexDigit (c.toNat % 16)]
  else String.singleton c

/-- A JSON string literal for `s`, as produced by `JSON.stringify`. -/
def jsonEscape (s : String) : String :=
  "\"" ++ String.join (s.toList.map jsonEscapeChar) ++ "\""

/-- `n` space characters, used for the two-space indentation of
`JSON.stringify(data, null, 2)`. -/
def spaces (n : Nat) : String := String.mk (List.replicate n ' ')

/-- Assemble a bracketed block (array or object) with two-space
indentation: empty blocks collapse to `op ++ cl`, otherwise each item is
placed on its own line indented by `ind + 2` and the closing bracket at
indentation `ind`. -/
def renderBlock (op cl : String) (ind : Nat) (items : List String) : String :=
  if items.isEmpty then op ++ cl
  else
    op ++ "\n"
      ++ String.intercalate ",\n" (items.map (fun it => spaces (ind + 2) ++ it))
      ++ "\n" ++ spaces ind ++ cl

mutual

/-- `JSON.stringify(v, null, 2)` at indentation level `ind`. Returns
`none` exactly when JSON.stringify returns `undefined` (a top-level
`undefined` value). Inside arrays `undefined` serializes as `null`;
object fields with `undefined` values are dropped. -/
def stringifyVal : Nat → JSValue → Option String
  | _, .null => some "null"
  | _, .undefined => none
  | _, .bool b => some (if b then "true" else "false")
  | _, .num n => some (toString n)
  | _, .str s => some (jsonEscape s)
  | ind, .arr xs => some (renderBlock "[" "]" ind (stringifyArr (ind + 2) xs))
  | ind, .obj fs => some (renderBlock "\x7b" "\x7d" ind (stringifyObj (ind + 2) fs))

/-- Serialized array elements, one string per element. -/
def stringifyArr : Nat → List JSValue → List String
  | _, [] => []
  | ind, v :: vs => ((stringifyVal ind v).getD "null") :: stringifyArr ind vs

/-- Serialized object entries `"key": value`, in field order, dropping
fields whose value serializes to nothing (`undefined`). -/
def stringifyObj : Nat → List (String × JSValue) → List String
  | _, [] => []
  | ind, (k, v) :: fs =>
    match stringifyVal ind v with
    | none => stringifyObj ind fs
    | some sv => (jsonEscape k ++ ": " ++ sv) :: stringifyObj ind fs

end

/-- `JSON.stringify(v, null, 2)` as called by `formatResponse`. -/
def jsonStringify (v : JSValue) : Option String := stringifyVal 0 v

mutual

/-- JavaScript `String(v)` coercion, used by `handleError` on non-Error
fault values: plain objects give "[object Object]", arrays join their
elements with commas. -/
def jsToString : JSValue → String
  | .null => "null"
  | .undefined => "undefined"
  | .bool b => if b then "true" else "false"
  | .num n => toString n
  | .str s => s
  | .arr xs => jsToStringArr xs
  | .obj _ => "[object Object]"

/-- `Array.prototype.toString`: elements joined by commas. -/
def jsToStringArr : List JSValue → String
  | [] => ""
  | [v] => jsToStringElem v
  | v :: vs => jsToStringElem v ++ "," ++ jsToStringArr vs

/-- An array element inside a join: `null` and `undefined` render empty. -/
def jsToStringElem : JSValue → String
  | .null => ""
  | .undefined => ""
  | v => jsToString v

end

/-- `formatResponse` from src/index.ts: null and undefined render as the
fixed no-data string, booleans as one of two fixed strings, numbers as a
count message, everything else via `JSON.stringify(data, null, 2)`.
(The `getD` branch is unreachable: `jsonStringify` is `none` only on
`undefined`, which the first case already handled.) -/
def formatResponse : JSValue → String
  | .null => "No data returned"
  | .undefined => "No data returned"
  | .bool b => if b then "Success" else "Operation failed"
  | .num n => "Count: " ++ toString n
  | v => (jsonStringify v).getD "undefined"

/-- A thrown JavaScript fault: either an `Error` instance carrying a
message, or an arbitrary thrown value. -/
inductive JSError where
  | error (message : String)
  | other (value : JSValue)

/-- `handleError` from src/index.ts. -/
def handleError : JSError → String
  | .error m => "Error: " ++ m
  | .other v => "Error: " ++ jsToString v

/-- The three process environment variables the server reads. Each is
`none` when unset. -/
structure Env where
  BENTO_PUBLISHABLE_KEY : Option String
  BENTO_SECRET_KEY : Option String
  BENTO_SITE_UUID : Option String

/-- The constructed Bento SDK client (`new Analytics(...)`). -/
structure Analytics where
  publishableKey : String
  secretKey : String
  siteUuid : String

/-- The literal message thrown by `getBentoClient` when a credential is
missing. -/
def missingCredsMessage : String :=
  "Missing required environment variables: BENTO_PUBLISHABLE_KEY, BENTO_SECRET_KEY, BENTO_SITE_UUID"

/-- `getBentoClient` from src/index.ts: reads the three environment
variables and throws a single fixed `Error` when any of them is falsy
(unset or empty); otherwise constructs the client. -/
def getBentoClient (env : Env) : Except JSError Analytics :=
  if !truthy env.BENTO_PUBLISHABLE_KEY || !truthy env.BENTO_SECRET_KEY
      || !truthy env.BENTO_SITE_UUID then
    .error (.error missingCredsMessage)
  else
    .ok { publishableKey := env.BENTO_PUBLISHABLE_KEY.getD ""
          secretKey := env.BENTO_SECRET_KEY.getD ""
          siteUuid := env.BENTO_SITE_UUID.getD "" }

/-- One MCP content item; every handler in this server produces items of
the shape `\x7b type: "text", text \x7d`. -/
inductive Content where
  | text (t : String)

/-- The value a tool handler returns to the MCP host. -/
structure ToolResult where
  content : List Content

/-- The `\x7b content: [\x7b type: "text", text \x7d] \x7d` result every
handler builds. -/
def textResult (s : String) : ToolResult := { content := [Content.text s] }

/-- Whether the first character list starts the second. -/
def startsWithChars : List Char → List Char → Bool
  | [], _ => true
  | _ :: _, [] => false
  | a :: as, b :: bs => a == b && startsWithChars as bs

/-- Whether `needle` occurs contiguously inside the character list. -/
def hasSubChars (needle : List Char) : List Char → Bool
  | [] => needle.isEmpty
  | c :: cs => startsWithChars needle (c :: cs) || hasSubChars needle cs

/-- Substring test used to state that an error message names a
particular environment variable. -/
def containsStr (hay needle : String) : Bool :=
  hasSubChars needle.toList hay.toList

/-! ## Tool handlers

Each handler is embedded as a pure function. The delegated SDK
operation is a parameter (an oracle `Analytics → args → Except JSError β`
standing for the remote call, which may itself throw), and the handler
returns, next to its `ToolResult`, the argument of the delegated call it
actually performed — `none` when no remote call was issued. The `try`
block of each handler corresponds to matching on `getBentoClient` and on
the oracle result; the `catch` branch is the `Except.error` cases, which
produce `handleError`. -/

/-- The argument the `bento_get_subscriber` handler passes to
`bento.V1.Subscribers.getSubscribers`: the source builds
`email ? \x7b email \x7d : \x7b uuid: uuid! \x7d`. -/
inductive SubscriberQuery where
  | byEmail (email : String)
  | byUuid (uuid : String)
deriving Repr, DecidableEq

/-- The `bento_get_subscriber` handler from src/index.ts. -/
def bento_get_subscriber (env : Env)
    (getSubscribers : Analytics → SubscriberQuery → Except JSError JSValue)
    (email uuid : Option String) : ToolResult × Option SubscriberQuery :=
  if !truthy email && !truthy uuid then
    (textResult "Either email or uuid is required", none)
  else
    match getBentoClient env with
    | .error e => (textResult (handleError e), none)
    | .ok bento =>
      let q := if truthy email then SubscriberQuery.byEmail (email.getD "")
               else SubscriberQuery.byUuid (uuid.getD "")
      match getSubscribers bento q with
      | .error e => (textResult (handleError e), some q)
      | .ok subscriber => (textResult (formatResponse subscriber), some q)

/-- The argument the `bento_check_blacklist` handler passes to
`bento.V1.Experimental.getBlacklistStatus`: the source builds
`domain ? \x7b domain \x7d : \x7b ipAddress: ip! \x7d`. -/
inductive BlacklistQuery where
  | byDomain (domain : String)
  | byIpAddress (ipAddress : String)
deriving Repr, DecidableEq

/-- The `bento_check_blacklist` handler from src/index.ts. -/
def bento_check_blacklist (env : Env)
    (getBlacklistStatus : Analytics → BlacklistQuery → Except JSError JSValue)
    (domain ip : Option String) : ToolResult × Option BlacklistQuery :=
  if !truthy domain && !truthy ip then
    (textResult "Either domain or ip is required", none)
  else
    match getBentoClient env with
    | .error e => (textResult (handleError e), none)
    | .ok bento =>
      let q := if truthy domain then BlacklistQuery.byDomain (domain.getD "")
               else BlacklistQuery.byIpAddress (ip.getD "")
      match getBlacklistStatus bento q with
      | .error e => (textResult (handleError e), some q)
      | .ok result => (textResult (formatResponse result), some q)

/-- The argument record the `bento_update_email_template` handler passes
to `bento.V1.EmailTemplates.updateEmailTemplate`. -/
structure UpdateTemplateArgs where
  id : Int
  subject : Option String
  html : Option String
deriving Repr, DecidableEq

/-- The `bento_update_email_template` handler from src/index.ts. -/
def bento_update_email_template (env : Env)
    (updateEmailTemplate : Analytics → UpdateTemplateArgs → Except JSError JSValue)
    (id : Int) (subject html : Option String) : ToolResult × Option UpdateTemplateArgs :=
  if !truthy subject && !truthy html then
    (textResult "Either subject or html (or both) is required to update", none)
  else
    match getBentoClient env with
    | .error e => (textResult (handleError e), none)
    | .ok bento =>
      let args : UpdateTemplateArgs := { id := id, subject := subject, html := html }
      match updateEmailTemplate bento args with
      | .error e => (textResult (handleError e), some args)
      | .ok template => (textResult (formatResponse template), some args)

/-- One element of the `subscribers` input array of
`bento_batch_import_subscribers` (the zod schema allows extra fields via
`passthrough`; those are kept in `extra`). -/
structure SubscriberInput where
  email : String
  firstName : Option String
  lastName : Option String
  tags : Option String
  extra : List (String × JSValue)
deriving Repr

/-- One element of the array the handler passes to
`bento.V1.Batch.importSubscribers`: `firstName`/`lastName` renamed to
snake case, the remaining fields spread unchanged. -/
structure SubscriberImport where
  email : String
  tags : Option String
  extra : List (String × JSValue)
  first_name : Option String
  last_name : Option String
deriving Repr

/-- The per-subscriber reshaping
`\x7b ...rest, first_name: firstName, last_name: lastName \x7d`. -/
def toImport (s : SubscriberInput) : SubscriberImport :=
  { email := s.email, tags := s.tags, extra := s.extra
    first_name := s.firstName, last_name := s.lastName }

/-- The `bento_batch_import_subscribers` handler from src/index.ts. -/
def bento_batch_import_subscribers (env : Env)
    (importSubscribers : Analytics → List SubscriberImport → Except JSError Int)
    (subscribers : List SubscriberInput) : ToolResult × Option (List SubscriberImport) :=
  if subscribers.length > 1000 then
    (textResult "Error: Maximum 1000 subscribers per batch", none)
  else
    match getBentoClient env with
    | .error e => (textResult (handleError e), none)
    | .ok bento =>
      let subs := subscribers.map toImport
      match importSubscribers bento subs with
      | .error e => (textResult (handleError e), some subs)
      | .ok count =>
        (textResult ("Successfully imported " ++ toString count ++ " subscribers"), some subs)

/-- One cart line item as accepted by the `bento_track_purchase` input
schema (camelCase keys). Numbers are modelled as `Int`. -/
structure CartItemInput where
  productId : Option String
  productSku : Option String
  productName : Option String
  quantity : Option Int
  productPrice : Option Int
deriving Repr, DecidableEq

/-- The optional `cart` input of `bento_track_purchase`. -/
structure CartInput where
  abandonedCheckoutUrl : Option String
  items : Option (List CartItemInput)
deriving Repr, DecidableEq

/-- A cart line item as forwarded to the SDK (snake_case keys). -/
structure CartItemPayload where
  product_id : Option String
  product_sku : Option String
  product_name : Option String
  quantity : Option Int
  product_price : Option Int
deriving Repr, DecidableEq

/-- The cart object as forwarded to the SDK. -/
structure CartPayload where
  abandoned_checkout_url : Option String
  items : Option (List CartItemPayload)
deriving Repr, DecidableEq

/-- The per-item camelCase-to-snake_case renaming in the handler. -/
def mapCartItem (i : CartItemInput) : CartItemPayload :=
  { product_id := i.productId, product_sku := i.productSku
    product_name := i.productName, quantity := i.quantity
    product_price := i.productPrice }

/-- The cart reshaping performed when `cart` is supplied. -/
def mapCart (c : CartInput) : CartPayload :=
  { abandoned_checkout_url := c.abandonedCheckoutUrl
    items := c.items.map (List.map mapCartItem) }

/-- `purchaseDetails.unique` as forwarded: `\x7b key: orderId \x7d`. -/
structure UniqueDetails where
  key : String
deriving Repr, DecidableEq

/-- `purchaseDetails.value` as forwarded: `\x7b currency, amount \x7d`. -/
structure ValueDetails where
  currency : String
  amount : Int
deriving Repr, DecidableEq

/-- The `purchaseDetails` object forwarded to `bento.V1.trackPurchase`. -/
structure PurchaseDetails where
  unique : UniqueDetails
  value : ValueDetails
  cart : Option CartPayload
deriving Repr, DecidableEq

/-- The full argument of `bento.V1.trackPurchase`. -/
structure TrackPurchaseArgs where
  email : String
  purchaseDetails : PurchaseDetails
deriving Repr, DecidableEq

/-- The `bento_track_purchase` handler from src/index.ts, taking the
parameters after zod parsing (so `currency` already carries the schema
default when the caller omitted it; see `invoke_bento_track_purchase`). -/
def bento_track_purchase (env : Env)
    (trackPurchase : Analytics → TrackPurchaseArgs → Except JSError JSValue)
    (email orderId : String) (amount : Int) (currency : String)
    (cart : Option CartInput) : ToolResult × Option TrackPurchaseArgs :=
  match getBentoClient env with
  | .error e => (textResult (handleError e), none)
  | .ok bento =>
    let args : TrackPurchaseArgs :=
      { email := email
        purchaseDetails :=
          { unique := { key := orderId }
            value := { currency := currency, amount := amount }
            cart := cart.map mapCart } }
    match trackPurchase bento args with
    | .error e => (textResult (handleError e), some args)
    | .ok result => (textResult (formatResponse result), some args)

/-- Invocation of `bento_track_purchase` from raw tool arguments: the
zod schema `z.string().default("USD")` substitutes "USD" when the
`currency` argument is absent, before the handler body runs. -/
def invoke_bento_track_purchase (env : Env)
    (trackPurchase : Analytics → TrackPurchaseArgs → Except JSError JSValue)
    (email orderId : String) (amount : Int) (currencyArg : Option String)
    (cart : Option CartInput) : ToolResult × Option TrackPurchaseArgs :=
  bento_track_purchase env trackPurchase email orderId amount (currencyArg.getD "USD") cart

/-- One email of the batch passed to
`bento.V1.Batch.sendTransactionalEmails`. -/
structure EmailPayload where
  «to» : String
  «from» : String
  subject : String
  html_body : String
  transactional : Bool
  personalizations : Option (List (String × String))
deriving Repr, DecidableEq

/-- The `bento_send_email` handler from src/index.ts. On a successful
delegated call the handler does not use `formatResponse`: it compares
the returned count with zero and emits one of two fixed messages. -/
def bento_send_email (env : Env)
    (sendTransactionalEmails : Analytics → List EmailPayload → Except JSError Int)
    («to» sender subject htmlBody : String) (transactional : Bool)
    (personalizations : Option (List (String × String)))
    : ToolResult × Option (List EmailPayload) :=
  match getBentoClient env with
  | .error e => (textResult (handleError e), none)
  | .ok bento =>
    let emails : List EmailPayload :=
      [{ «to» := «to», «from» := sender, subject := subject, html_body := htmlBody
         transactional := transactional, personalizations := personalizations }]
    match sendTransactionalEmails bento emails with
    | .error e => (textResult (handleError e), some emails)
    | .ok result =>
      (textResult (if result > 0 then "Email sent successfully" else "Failed to send email"),
       some emails)

/-- Invocation of `bento_send_email` from raw tool arguments: the zod
schema `z.boolean().default(true)` substitutes `true` when the
`transactional` argument is absent, before the handler body runs. -/
def invoke_bento_send_email (env : Env)
    (sendTransactionalEmails : Analytics → List EmailPayload → Except JSError Int)
    («to» sender subject htmlBody : String) (transactionalArg : Option Bool)
    (personalizations : Option (List (String × String)))
    : ToolResult × Option (List EmailPayload) :=
  bento_send_email env sendTransactionalEmails «to» sender subject htmlBody
    (transactionalArg.getD true) personalizations

/-! ## Concrete environments and oracles used to instantiate theorems -/

/-- An environment with all three credentials unset. -/
def envNone : Env :=
  { BENTO_PUBLISHABLE_KEY := none, BENTO_SECRET_KEY := none, BENTO_SITE_UUID := none }

/-- An environment with exactly one credential (the site UUID) unset. -/
def envOne : Env :=
  { BENTO_PUBLISHABLE_KEY := some "pk", BENTO_SECRET_KEY := some "sk", BENTO_SITE_UUID := none }

/-- An environment with all three credentials set. -/
def envOk : Env :=
  { BENTO_PUBLISHABLE_KEY := some "pk", BENTO_SECRET_KEY := some "sk"
    BENTO_SITE_UUID := some "site" }

/-- The client `getBentoClient` constructs from `envOk`. -/
def bentoOk : Analytics := { publishableKey := "pk", secretKey := "sk", siteUuid := "site" }

/-- A remote oracle for subscriber lookups that always succeeds with `null`. -/
def subOracle : Analytics → SubscriberQuery → Except JSError JSValue :=
  fun _ _ => Except.ok JSValue.null

/-- A remote oracle for blacklist checks that always succeeds with `null`. -/
def blOracle : Analytics → BlacklistQuery → Except JSError JSValue :=
  fun _ _ => Except.ok JSValue.null

/-- A remote oracle for template updates that always succeeds with `null`. -/
def updOracle : Analytics → UpdateTemplateArgs → Except JSError JSValue :=
  fun _ _ => Except.ok JSValue.null

/-- A remote oracle for batch imports that reports 1000 rows imported. -/
def impOracle : Analytics → List SubscriberImport → Except JSError Int :=
  fun _ _ => Except.ok 1000

/-- A remote oracle for purchase tracking that always succeeds with `null`. -/
def purchaseOracle : Analytics → TrackPurchaseArgs → Except JSError JSValue :=
  fun _ _ => Except.ok JSValue.null

/-- A remote oracle for transactional sends that reports two emails sent. -/
def sendTwo : Analytics → List EmailPayload → Except JSError Int :=
  fun _ _ => Except.ok 2

/-- A subscriber-lookup oracle that always throws a non-Error value. -/
def subFail : Analytics → SubscriberQuery → Except JSError JSValue :=
  fun _ _ => Except.error (JSError.other (JSValue.str "boom"))

/-- A sample batch-import row. -/
def demoSub : SubscriberInput :=
  { email := "a@b.c", firstName := none, lastName := none, tags := none, extra := [] }

/-! ## Theorems -/

/-- C3 (counterexample): the claim says that, per the spec rule, an
absent or EMPTY result renders as the no-data message. The code only
treats `null` and `undefined` that way: an empty object serializes to
"\x7b\x7d" and an empty string to a quoted empty string, neither of which
is the no-data message. -/
theorem formatResponse_empty_object_not_no_data :
    formatResponse (JSValue.obj []) = "\x7b\x7d"
    ∧ formatResponse (JSValue.obj []) ≠ "No data returned"
    ∧ formatResponse (JSValue.str "") = "\"\""
    ∧ formatResponse (JSValue.str "") ≠ "No data returned" :=
  ⟨rfl, by decide, rfl, by decide⟩

/-- C3 (amended): `formatResponse` is a total function with the fixed
case outcomes: `null`/`undefined` give the literal no-data string,
booleans one of two fixed literals, numbers a literal count message, and
any other value its `JSON.stringify(·, null, 2)` serialization, which
preserves object field order (witnessed by the two field orders of the
same two-field object serializing to distinct strings that list the
fields in input order). Empty but non-null values are serialized, not
mapped to the no-data message. -/
theorem formatResponse_cases :
    formatResponse JSValue.null = "No data returned"
    ∧ formatResponse JSValue.undefined = "No data returned"
    ∧ formatResponse (JSValue.bool true) = "Success"
    ∧ formatResponse (JSValue.bool false) = "Operation failed"
    ∧ (∀ n : Int, formatResponse (JSValue.num n) = "Count: " ++ toString n)
    ∧ formatResponse (JSValue.obj [("a", JSValue.num 1), ("b", JSValue.num 2)])
        = "\x7b\n  \"a\": 1,\n  \"b\": 2\n\x7d"
    ∧ formatResponse (JSValue.obj [("b", JSValue.num 2), ("a", JSValue.num 1)])
        = "\x7b\n  \"b\": 2,\n  \"a\": 1\n\x7d"
    ∧ formatResponse (JSValue.obj []) = "\x7b\x7d" :=
  ⟨rfl, rfl, rfl, rfl, fun _ => rfl, rfl, rfl, rfl⟩

/-- C10: whenever any non-empty subset of the three credentials is
falsy, `getBentoClient` throws one single fixed `Error` whose message
names all three environment variables — in particular the message does
not depend on which credentials are missing. -/
theorem missing_credentials_message_fixed (env : Env)
    (hmiss : truthy env.BENTO_PUBLISHABLE_KEY = false
      ∨ truthy env.BENTO_SECRET_KEY = false
      ∨ truthy env.BENTO_SITE_UUID = false) :
    getBentoClient env = Except.error (JSError.error missingCredsMessage)
    ∧ containsStr missingCredsMessage "BENTO_PUBLISHABLE_KEY" = true
    ∧ containsStr missingCredsMessage "BENTO_SECRET_KEY" = true
    ∧ containsStr missingCredsMessage "BENTO_SITE_UUID" = true := by
  refine ⟨?_, by decide, by decide, by decide⟩
  unfold getBentoClient
  rcases hmiss with h | h | h <;> simp [h]

/-- C10 (witness): with exactly one credential missing (the site UUID),
the message still names all three variables. -/
theorem missing_credentials_message_fixed_witness :
    getBentoClient envOne = Except.error (JSError.error missingCredsMessage)
    ∧ containsStr missingCredsMessage "BENTO_PUBLISHABLE_KEY" = true := by
  have h := missing_credentials_message_fixed envOne (Or.inr (Or.inr (by decide)))
  exact ⟨h.1, h.2.1⟩

/-- C2: if any of the three configuration values is falsy at invocation
time, every embedded tool fails before its delegated call (the returned
call log is `none`) with the textual result built from the fixed error
message, which names all three variables. Tools with an input-validation
gate are considered on inputs that pass the gate, so the failure
observed is the credential failure. -/
theorem missing_credentials_fail_before_call (env : Env)
    (hmiss : ¬(truthy env.BENTO_PUBLISHABLE_KEY = true
      ∧ truthy env.BENTO_SECRET_KEY = true
      ∧ truthy env.BENTO_SITE_UUID = true)) :
    getBentoClient env = Except.error (JSError.error missingCredsMessage)
    ∧ (containsStr missingCredsMessage "BENTO_PUBLISHABLE_KEY" = true
       ∧ containsStr missingCredsMessage "BENTO_SECRET_KEY" = true
       ∧ containsStr missingCredsMessage "BENTO_SITE_UUID" = true)
    ∧ (∀ gs email uuid, (truthy email || truthy uuid) = true →
        bento_get_subscriber env gs email uuid
          = (textResult (handleError (JSError.error missingCredsMessage)), none))
    ∧ (∀ gb domain ip, (truthy domain || truthy ip) = true →
        bento_check_blacklist env gb domain ip
          = (textResult (handleError (JSError.error missingCredsMessage)), none))
    ∧ (∀ upd i subject html, (truthy subject || truthy html) = true →
        bento_update_email_template env upd i subject html
          = (textResult (handleError (JSError.error missingCredsMessage)), none))
    ∧ (∀ tp email orderId amount currency cart,
        bento_track_purchase env tp email orderId amount currency cart
          = (textResult (handleError (JSError.error missingCredsMessage)), none))
    ∧ (∀ send t s subj hb tr pers,
        bento_send_email env send t s subj hb tr pers
          = (textResult (handleError (JSError.error missingCredsMessage)), none))
    ∧ (∀ imp subs, subs.length ≤ 1000 →
        bento_batch_import_subscribers env imp subs
          = (textResult (handleError (JSError.error missingCredsMessage)), none)) := by
  have hgbc : getBentoClient env = Except.error (JSError.error missingCredsMessage) := by
    unfold getBentoClient
    cases h1 : truthy env.BENTO_PUBLISHABLE_KEY
      <;> cases h2 : truthy env.BENTO_SECRET_KEY
      <;> cases h3 : truthy env.BENTO_SITE_UUID <;> simp_all
  refine ⟨hgbc, ⟨by decide, by decide, by decide⟩, ?_, ?_, ?_, ?_, ?_, ?_⟩
  · intro gs email uuid hval
    have hcond : (!truthy email && !truthy uuid) = false := by
      cases he : truthy email <;> cases hu : truthy uuid <;> simp_all
    simp [bento_get_subscriber, hcond, hgbc]
  · intro gb domain ip hval
    have hcond : (!truthy domain && !truthy ip) = false := by
      cases hd : truthy domain <;> cases hi : truthy ip <;> simp_all
    simp [bento_check_blacklist, hcond, hgbc]
  · intro upd i subject html hval
    have hcond : (!truthy subject && !truthy html) = false := by
      cases hs : truthy subject <;> cases hh : truthy html <;> simp_all
    simp [bento_update_email_template, hcond, hgbc]
  · intro tp email orderId amount currency cart
    simp [bento_track_purchase, hgbc]
  · intro send t s subj hb tr pers
    simp [bento_send_email, hgbc]
  · intro imp subs hlen
    unfold bento_batch_import_subscribers
    rw [if_neg (by omega), hgbc]

/-- C2 (witness): with all three credentials unset, a subscriber lookup
with a valid email fails with the message naming all three variables and
performs no remote call. -/
theorem missing_credentials_fail_before_call_witness :
    getBentoClient envNone = Except.error (JSError.error missingCredsMessage)
    ∧ bento_get_subscriber envNone subOracle (some "a@b.c") none
        = (textResult (handleError (JSError.error missingCredsMessage)), none) := by
  have h := missing_credentials_fail_before_call envNone (by decide)
  exact ⟨h.1, h.2.2.1 subOracle (some "a@b.c") none (by decide)⟩

/-- C5: the two either-identifier tools, invoked with both identifiers
falsy (absent or empty), return their literal guidance message and issue
no remote call, for every environment — in particular also when the
credentials are missing, showing the check precedes credential
resolution. -/
theorem either_identifier_required (env : Env)
    (gs : Analytics → SubscriberQuery → Except JSError JSValue)
    (gb : Analytics → BlacklistQuery → Except JSError JSValue)
    (email uuid domain ip : Option String)
    (he : truthy email = false) (hu : truthy uuid = false)
    (hd : truthy domain = false) (hi : truthy ip = false) :
    bento_get_subscriber env gs email uuid
      = (textResult "Either email or uuid is required", none)
    ∧ bento_check_blacklist env gb domain ip
      = (textResult "Either domain or ip is required", none) := by
  constructor
  · simp [bento_get_subscriber, he, hu]
  · simp [bento_check_blacklist, hd, hi]

/-- C5 (witness): both tools with no identifiers at all, in an
environment with no credentials, return the guidance messages with an
empty call log. -/
theorem either_identifier_required_witness :
    bento_get_subscriber envNone subOracle none none
      = (textResult "Either email or uuid is required", none)
    ∧ bento_check_blacklist envNone blOracle none none
      = (textResult "Either domain or ip is required", none) :=
  either_identifier_required envNone subOracle blOracle none none none none
    (by decide) (by decide) (by decide) (by decide)

/-- C9: when both alternative identifiers are supplied (non-empty), the
delegated call is keyed by the first one only: subscriber lookup by the
email, blacklist check by the domain; the uuid and ip do not appear in
the forwarded query. -/
theorem first_identifier_precedence (env : Env) (bento : Analytics)
    (gs : Analytics → SubscriberQuery → Except JSError JSValue)
    (gb : Analytics → BlacklistQuery → Except JSError JSValue)
    (e u d i : String)
    (hok : getBentoClient env = Except.ok bento)
    (he : e.isEmpty = false) (hd : d.isEmpty = false) :
    (bento_get_subscriber env gs (some e) (some u)).2 = some (SubscriberQuery.byEmail e)
    ∧ (bento_check_blacklist env gb (some d) (some i)).2
        = some (BlacklistQuery.byDomain d) := by
  constructor
  · have ht : truthy (some e) = true := by simp [truthy, he]
    unfold bento_get_subscriber
    rw [hok]
    simp only [ht, Bool.not_true, Bool.false_and, Bool.false_eq_true, if_false, if_true,
      Option.getD_some]
    cases hr : gs bento (SubscriberQuery.byEmail e) <;> simp [hr]
  · have ht : truthy (some d) = true := by simp [truthy, hd]
    unfold bento_check_blacklist
    rw [hok]
    simp only [ht, Bool.not_true, Bool.false_and, Bool.false_eq_true, if_false, if_true,
      Option.getD_some]
    cases hr : gb bento (BlacklistQuery.byDomain d) <;> simp [hr]

/-- C9 (witness): with both email and uuid supplied the lookup is keyed
by the email, and with both domain and ip supplied the blacklist check
is keyed by the domain. -/
theorem first_identifier_precedence_witness :
    (bento_get_subscriber envOk subOracle (some "a@b.c") (some "uuid-1")).2
      = some (SubscriberQuery.byEmail "a@b.c")
    ∧ (bento_check_blacklist envOk blOracle (some "x.com") (some "1.2.3.4")).2
      = some (BlacklistQuery.byDomain "x.com") :=
  first_identifier_precedence envOk bentoOk subOracle blOracle
    "a@b.c" "uuid-1" "x.com" "1.2.3.4" rfl (by decide) (by decide)

/-- C6: the email-template update tool rejects an invocation in which
neither a new subject nor new HTML content is supplied (both falsy) with
its literal either/or message and no remote call, in every environment;
and when at least one of the two is supplied and the credentials
resolve, the delegated update call is performed with exactly the given
id, subject and html. -/
theorem update_template_requires_field (env : Env) (bento : Analytics)
    (upd : Analytics → UpdateTemplateArgs → Except JSError JSValue)
    (i : Int) (subject html : Option String)
    (hok : getBentoClient env = Except.ok bento)
    (hone : (truthy subject || truthy html) = true) :
    (∀ env2 upd2 i2 s2 h2, truthy s2 = false → truthy h2 = false →
        bento_update_email_template env2 upd2 i2 s2 h2
          = (textResult "Either subject or html (or both) is required to update", none))
    ∧ (bento_update_email_template env upd i subject html).2
        = some { id := i, subject := subject, html := html } := by
  constructor
  · intro env2 upd2 i2 s2 h2 hs hh
    simp [bento_update_email_template, hs, hh]
  · have hcond : (!truthy subject && !truthy html) = false := by
      cases hs : truthy subject <;> cases hh : truthy html <;> simp_all
    unfold bento_update_email_template
    rw [hok, hcond]
    simp only [Bool.false_eq_true, if_false]
    cases hr : upd bento { id := i, subject := subject, html := html } <;> simp [hr]

/-- C6 (witness): with neither field the call is rejected without a
remote call; with only a subject the delegated update receives the id,
the subject and no html. -/
theorem update_template_requires_field_witness :
    bento_update_email_template envOk updOracle 7 none none
      = (textResult "Either subject or html (or both) is required to update", none)
    ∧ (bento_update_email_template envOk updOracle 7 (some "New subject") none).2
      = some { id := 7, subject := some "New subject", html := none } := by
  have h := update_template_requires_field envOk bentoOk updOracle 7
    (some "New subject") none rfl (by decide)
  exact ⟨h.1 envOk updOracle 7 none none (by decide) (by decide), h.2⟩

/-- C7: invoking the purchase-tracking tool without a currency argument
forwards currency "USD" (the zod schema default) and the amount exactly
as given — no unit conversion — with the order id as the unique
deduplication key, whenever the credentials resolve. -/
theorem track_purchase_currency_default (env : Env) (bento : Analytics)
    (tp : Analytics → TrackPurchaseArgs → Except JSError JSValue)
    (email orderId : String) (amount : Int) (cart : Option CartInput)
    (hok : getBentoClient env = Except.ok bento) :
    (invoke_bento_track_purchase env tp email orderId amount none cart).2
      = some { email := email
               purchaseDetails :=
                 { unique := { key := orderId }
                   value := { currency := "USD", amount := amount }
                   cart := cart.map mapCart } } := by
  unfold invoke_bento_track_purchase bento_track_purchase
  rw [hok]
  simp only [Option.getD_none]
  cases hr : tp bento
      { email := email
        purchaseDetails :=
          { unique := { key := orderId }
            value := { currency := "USD", amount := amount }
            cart := cart.map mapCart } } <;> simp [hr]

/-- C7 (witness): amount 9999 with no currency reaches the delegated
call as amount 9999 with currency "USD" and unique key "order-1". -/
theorem track_purchase_currency_default_witness :
    (invoke_bento_track_purchase envOk purchaseOracle "a@b.c" "order-1" 9999 none none).2
      = some { email := "a@b.c"
               purchaseDetails :=
                 { unique := { key := "order-1" }
                   value := { currency := "USD", amount := 9999 }
                   cart := none } } :=
  track_purchase_currency_default envOk bentoOk purchaseOracle "a@b.c" "order-1" 9999 none rfl

/-- C8 (counterexample): a successful transactional send does not return
a success count: with the delegated operation reporting 2 emails sent,
the invocation returns the fixed message "Email sent successfully",
which neither is the count message for 2 nor contains the digit 2 at
all. -/
theorem send_email_no_count_in_text :
    (invoke_bento_send_email envOk sendTwo "to@x.y" "from@x.y" "Hi" "<p>Hi</p>" none none).1
      = textResult "Email sent successfully"
    ∧ containsStr "Email sent successfully" "2" = false
    ∧ "Email sent successfully" ≠ formatResponse (JSValue.num 2) :=
  ⟨rfl, by decide, by decide⟩

/-- C8 (amended): a successful invocation returns one of two fixed
messages according to whether the delegated send count is positive (it
does not include the count itself), and the transactional flag defaults
to true when not supplied: the forwarded email payload carries
`transactional = true`. -/
theorem send_email_success_message (env : Env) (bento : Analytics)
    (send : Analytics → List EmailPayload → Except JSError Int)
    (t s subj hb : String) (pers : Option (List (String × String))) (n : Int)
    (hok : getBentoClient env = Except.ok bento)
    (hsend : ∀ b es, send b es = Except.ok n) :
    invoke_bento_send_email env send t s subj hb none pers
      = (textResult (if n > 0 then "Email sent successfully" else "Failed to send email"),
         some [{ «to» := t, «from» := s, subject := subj, html_body := hb
                 transactional := true, personalizations := pers }]) := by
  unfold invoke_bento_send_email bento_send_email
  rw [hok]
  simp [hsend]

/-- C8 (witness): with the send oracle reporting 2 emails sent and no
transactional argument, the result is the success message and the
forwarded payload has `transactional = true`. -/
theorem send_email_success_message_witness :
    invoke_bento_send_email envOk sendTwo "to@x.y" "from@x.y" "Receipt" "<p>Hi</p>" none none
      = (textResult "Email sent successfully",
         some [{ «to» := "to@x.y", «from» := "from@x.y", subject := "Receipt"
                 html_body := "<p>Hi</p>", transactional := true, personalizations := none }]) := by
  have h := send_email_success_message envOk bentoOk sendTwo
    "to@x.y" "from@x.y" "Receipt" "<p>Hi</p>" none 2 rfl (fun _ _ => rfl)
  simpa using h

/-- C4: the batch subscriber-import tool rejects any input list longer
than 1000 entries — in particular one of exactly 1001 — with its literal
maximum-batch error and no remote call, in every environment; and with
exactly 1000 entries and resolving credentials the delegated bulk-import
call is performed on the reshaped rows. -/
theorem batch_import_cap (env : Env) (bento : Analytics)
    (imp : Analytics → List SubscriberImport → Except JSError Int)
    (xs ys : List SubscriberInput)
    (hok : getBentoClient env = Except.ok bento)
    (h1001 : xs.length = 1001) (h1000 : ys.length = 1000) :
    (∀ env2 imp2, bento_batch_import_subscribers env2 imp2 xs
        = (textResult "Error: Maximum 1000 subscribers per batch", none))
    ∧ (bento_batch_import_subscribers env imp ys).2 = some (ys.map toImport) := by
  constructor
  · intro env2 imp2
    unfold bento_batch_import_subscribers
    rw [if_pos (by omega)]
  · unfold bento_batch_import_subscribers
    rw [if_neg (by omega), hok]
    cases hr : imp bento (ys.map toImport) <;> simp [hr]

/-- C4 (witness): a concrete 1001-entry list is rejected with the
literal error and an empty call log, and a concrete 1000-entry list
reaches the delegated import. -/
theorem batch_import_cap_witness :
    bento_batch_import_subscribers envOk impOracle (List.replicate 1001 demoSub)
      = (textResult "Error: Maximum 1000 subscribers per batch", none)
    ∧ (bento_batch_import_subscribers envOk impOracle (List.replicate 1000 demoSub)).2
      = some ((List.replicate 1000 demoSub).map toImport) := by
  have h := batch_import_cap envOk bentoOk impOracle
    (List.replicate 1001 demoSub) (List.replicate 1000 demoSub) rfl
    (by rw [List.length_replicate]) (by rw [List.length_replicate])
  exact ⟨h.1 envOk impOracle, h.2⟩

/-- C1: any fault raised during credential resolution or the delegated
call is caught at the tool boundary (stated on the cited
`bento_get_subscriber` handler, on inputs past its input gate) and
converted to the textual result `handleError e`; `handleError` maps an
`Error` fault to "Error: " followed by its message and any other fault
to "Error: " followed by the JavaScript string conversion of the value;
and every invocation of the handler, whatever happens, returns exactly
one text content item. -/
theorem tool_boundary_error_to_text (env : Env)
    (gs : Analytics → SubscriberQuery → Except JSError JSValue)
    (email uuid : Option String) (e : JSError)
    (hval : (truthy email || truthy uuid) = true)
    (hfault : getBentoClient env = Except.error e
      ∨ ((∀ b q, gs b q = Except.error e)
          ∧ ∃ bento, getBentoClient env = Except.ok bento)) :
    (bento_get_subscriber env gs email uuid).1 = textResult (handleError e)
    ∧ (∀ m, handleError (JSError.error m) = "Error: " ++ m)
    ∧ (∀ v, handleError (JSError.other v) = "Error: " ++ jsToString v)
    ∧ (∀ env2 gs2 e2 u2, ∃ t, (bento_get_subscriber env2 gs2 e2 u2).1 = textResult t) := by
  have hcond : (!truthy email && !truthy uuid) = false := by
    cases he : truthy email <;> cases hu : truthy uuid <;> simp_all
  refine ⟨?_, fun m => rfl, fun v => rfl, ?_⟩
  · unfold bento_get_subscriber
    rw [hcond]
    simp only [Bool.false_eq_true, if_false]
    rcases hfault with h | ⟨hall, bento, hok⟩
    · rw [h]
    · rw [hok]
      simp [hall]
  · intro env2 gs2 e2 u2
    unfold bento_get_subscriber
    split
    · exact ⟨_, rfl⟩
    · split
      · exact ⟨_, rfl⟩
      · dsimp only
        split <;> exact ⟨_, rfl⟩

/-- C1 (witness): with credentials present and a delegated call that
throws the non-Error value "boom", the invocation returns the single
text item "Error: boom". -/
theorem tool_boundary_error_to_text_witness :
    (bento_get_subscriber envOk subFail (some "a@b.c") none).1
      = textResult (handleError (JSError.other (JSValue.str "boom"))) :=
  (tool_boundary_error_to_text envOk subFail (some "a@b.c") none
    (JSError.other (JSValue.str "boom")) (by decide)
    (Or.inr ⟨fun _ _ => rfl, ⟨bentoOk, rfl⟩⟩)).1

end BentoMcp
